import Mathlib

/-!
Shallow embedding of `setup.py` from Lazy-Coder-03/Neuralnetwork-Visualisation:
a minimal static HTTP file server wrapping Python's
`http.server.SimpleHTTPRequestHandler` and `socketserver.TCPServer`.

The observable behaviour of one process run is modelled as a trace of
events (working-directory changes, the TCP bind, stdout/stderr lines)
together with an optional unhandled exception.  Pieces of the Python
standard library that the script delegates to (integer parsing, path
manipulation, the base GET handler, and the exceptions raised by socket
binding) are modelled as explicit Lean functions; each such definition is
marked in its doc comment.
-/

/-- `DEFAULT_PORT = 8000` from `setup.py`. -/
def DEFAULT_PORT : Int := 8000

/-- `DEFAULT_DIRECTORY = "."` from `setup.py`. -/
def DEFAULT_DIRECTORY : String := "."

/-- One observable side effect of the process. -/
inductive Event where
  | chdir (dir : String)
  | bindTCP (host : String) (port : Int)
  | stdout (line : String)
  | stderr (line : String)
deriving Repr, DecidableEq

/-- Modelled from the spec: the filesystem visible under the serving root.
Regular files are an association list from request path to byte contents;
`dirs` lists the paths that name directories. -/
structure FileSystem where
  files : List (String × List Nat)
  dirs : List String
deriving Repr, DecidableEq

/-- Look up the byte contents of a regular file at path `p`. -/
def FileSystem.lookupFile (fs : FileSystem) (p : String) : Option (List Nat) :=
  (fs.files.find? (fun e => e.1 = p)).map Prod.snd

/-- Whether path `p` names a directory. -/
def FileSystem.isDir (fs : FileSystem) (p : String) : Bool :=
  fs.dirs.contains p

/-- An HTTP response as observed by the client. -/
structure Response where
  status : Nat
  body : List Nat
  contentType : Option String
  contentLength : Option Nat
deriving Repr, DecidableEq

/-- Modelled from the spec: the `mimetypes`-style content-type guess made by
the base handler ("an appropriate content-type guess"), keyed on the path
extension with a binary default. -/
def guessType (path : String) : String :=
  if path.endsWith ".html" then "text/html"
  else if path.endsWith ".htm" then "text/html"
  else if path.endsWith ".txt" then "text/plain"
  else if path.endsWith ".css" then "text/css"
  else if path.endsWith ".js" then "text/javascript"
  else if path.endsWith ".json" then "application/json"
  else if path.endsWith ".png" then "image/png"
  else "application/octet-stream"

/-- Bytes of a string, one `Nat` per character. -/
def strBytes (s : String) : List Nat :=
  s.toList.map Char.toNat

/-- The index file consulted when a directory is requested. -/
def indexPath (p : String) : String :=
  if p.endsWith "/" then p ++ "index.html" else p ++ "/index.html"

/-- Modelled from the spec: the generated directory-listing page the base
handler produces when a directory without an index file is requested. -/
def listingBytes (p : String) : List Nat :=
  strBytes ("Directory listing for " ++ p)

/-- Body of the standard 404 error page. -/
def notFoundBytes : List Nat :=
  strBytes "Error response: 404 File not found"

namespace SimpleHTTPRequestHandler

/-- Modelled from the spec: `http.server.SimpleHTTPRequestHandler.do_GET`,
the inherited file-serving behaviour that `Handler.do_GET` delegates to.
If the path names an existing regular file, it returns HTTP 200 with the
file's bytes, a content-type guess and a content-length; if it names a
directory it returns an index file when present, otherwise a generated
listing page; if the path resolves to nothing under the root it returns
HTTP 404. -/
def do_GET (fs : FileSystem) (path : String) : Response :=
  match fs.lookupFile path with
  | some bytes =>
    { status := 200, body := bytes,
      contentType := some (guessType path),
      contentLength := some bytes.length }
  | none =>
    if fs.isDir path then
      match fs.lookupFile (indexPath path) with
      | some bytes =>
        { status := 200, body := bytes,
          contentType := some (guessType (indexPath path)),
          contentLength := some bytes.length }
      | none =>
        { status := 200, body := listingBytes path,
          contentType := some "text/html",
          contentLength := some (listingBytes path).length }
    else
      { status := 404, body := notFoundBytes,
        contentType := some "text/html",
        contentLength := some notFoundBytes.length }

end SimpleHTTPRequestHandler

namespace Handler

/-- `Handler.do_GET` from `setup.py`: prints `Serving file: <path>` to
standard output, then returns `super().do_GET()`.  The first component is
the stdout trace produced before delegation, the second the delegated
response. -/
def do_GET (fs : FileSystem) (path : String) : List Event × Response :=
  ([Event.stdout ("Serving file: " ++ path)],
   SimpleHTTPRequestHandler.do_GET fs path)

end Handler

/-- The stdout events emitted while handling one GET request. -/
def requestEvents (fs : FileSystem) (p : String) : List Event :=
  (Handler.do_GET fs p).1

/-- The serve loop's view of a batch of requests: each one is handled by
`Handler.do_GET` against the same read-only filesystem, one after the
other, independently. -/
def serveRequests (fs : FileSystem) (reqs : List String) : List (List Event × Response) :=
  reqs.map (Handler.do_GET fs)

/-- Modelled from the spec: whether a character is an ASCII decimal digit,
as used by Python's `int`. -/
def isDecDigit (c : Char) : Bool :=
  decide ('0' ≤ c) && decide (c ≤ '9')

/-- No two consecutive underscores in a digit group. -/
def noDoubleUnderscore : List Char → Bool
  | [] => true
  | [_] => true
  | a :: b :: rest =>
    !(a = '_' && b = '_') && noDoubleUnderscore (b :: rest)

/-- Modelled from the spec: validity of a digit string for Python's `int`:
nonempty, every character a digit or an underscore, starting and ending
with a digit, and underscores only singly between digits. -/
def validDigits (cs : List Char) : Bool :=
  match cs with
  | [] => false
  | c :: _ =>
    isDecDigit c &&
    cs.all (fun d => isDecDigit d || d = '_') &&
    (match cs.getLast? with
     | some d => isDecDigit d
     | none => false) &&
    noDoubleUnderscore cs

/-- Numeric value of a list of decimal digits. -/
def digitsToNat (cs : List Char) : Nat :=
  cs.foldl (fun acc c => acc * 10 + (c.toNat - 48)) 0

/-- Value of a digit group once validated, ignoring underscores. -/
def pyDigits (cs : List Char) : Option Nat :=
  if validDigits cs then some (digitsToNat (cs.filter (fun c => c ≠ '_')))
  else none

/-- Modelled from the spec: Python's `int(s)` on a decimal string —
surrounding whitespace stripped, an optional sign, then digits with
optional single underscores between them; `none` models `ValueError`. -/
def pyInt (s : String) : Option Int :=
  let cs := ((s.toList.dropWhile Char.isWhitespace).reverse.dropWhile
    Char.isWhitespace).reverse
  match cs with
  | [] => none
  | c :: rest =>
    if c = '-' then (pyDigits rest).map (fun n => -(n : Int))
    else if c = '+' then (pyDigits rest).map (fun n => (n : Int))
    else (pyDigits cs).map (fun n => (n : Int))

/-- The configuration computed by the `if __name__ == "__main__"` block:
the global `PORT` and `DIRECTORY`, and the warnings printed to stderr. -/
structure MainConfig where
  PORT : Int
  DIRECTORY : String
  stderrLines : List String
deriving Repr, DecidableEq

/-- The `if __name__ == "__main__"` block of `setup.py`: `PORT` starts at
`DEFAULT_PORT` and `DIRECTORY` at `DEFAULT_DIRECTORY`; when more than one
`sys.argv` entry exists, `int(sys.argv[1])` replaces `PORT`, a
`ValueError` instead printing a warning to stderr and keeping the
default. -/
def pyMain (argv : List String) : MainConfig :=
  if h : argv.length > 1 then
    match pyInt (argv.get ⟨1, h⟩) with
    | some n => { PORT := n, DIRECTORY := DEFAULT_DIRECTORY, stderrLines := [] }
    | none =>
      { PORT := DEFAULT_PORT, DIRECTORY := DEFAULT_DIRECTORY,
        stderrLines := ["Invalid port number provided. Using default port 8000."] }
  else { PORT := DEFAULT_PORT, DIRECTORY := DEFAULT_DIRECTORY, stderrLines := [] }

/-- Modelled from the spec: `os.path.dirname` on a POSIX path — everything
up to (excluding) the final slash-separated component. -/
def dirname (p : String) : String :=
  String.intercalate "/" ((p.splitOn "/").dropLast)

/-- Modelled from the spec: `os.path.abspath` — the path itself when
already absolute, otherwise joined onto the current working directory
(normalisation of dot segments elided; the paths used here contain
none). -/
def abspath (cwd : String) (p : String) : String :=
  if p.startsWith "/" then p else cwd ++ "/" ++ p

/-- The environment one process run executes in: the caller's working
directory, the script's `__file__` value, whether the OS already has the
requested port bound, the files under the script's directory, and the GET
request paths received before the interrupt arrives. -/
structure Env where
  cwd : String
  scriptPath : String
  portInUse : Bool
  fs : FileSystem
  requests : List String
deriving Repr, DecidableEq

/-- The exception, if any, raised by `socketserver.TCPServer(("", port), ...)`. -/
inductive BindExc where
  | osError (details : String)
  | overflowError (details : String)
deriving Repr, DecidableEq

/-- Modelled from the spec: the exception behaviour of binding a TCP socket
in CPython.  A port outside 0–65535 raises `OverflowError` (which is not
an `OSError`); an in-range port already bound raises `OSError`; otherwise
the bind succeeds. -/
def tcpServerExc (port : Int) (portInUse : Bool) : Option BindExc :=
  if port < 0 ∨ port > 65535 then
    some (BindExc.overflowError "bind(): port must be 0-65535.")
  else if portInUse then
    some (BindExc.osError "[Errno 98] Address already in use")
  else none

/-- Result of one run of `run_server`: the event trace, and the unhandled
exception when one escapes. -/
structure RunOutcome where
  events : List Event
  unhandled : Option String
deriving Repr, DecidableEq

/-- `run_server(port, directory)` from `setup.py`.  First
`os.chdir(os.path.dirname(os.path.abspath(__file__)))`; then the
`TCPServer` bind inside `try`: an `OSError` is caught and reported on
stderr, a `KeyboardInterrupt` (which in a run ends `serve_forever` after
`env.requests` have been handled) is caught and reported as
`Server stopped.`; any other exception, such as the `OverflowError` from
an out-of-range port, escapes unhandled. -/
def run_server (env : Env) (port : Int) (directory : String) : RunOutcome :=
  let cd := Event.chdir (dirname (abspath env.cwd env.scriptPath))
  match tcpServerExc port env.portInUse with
  | some (BindExc.osError d) =>
    { events := [cd,
        Event.stderr ("Error: Could not start the server on port " ++
          toString port ++ ". The port might be in use."),
        Event.stderr ("Details: " ++ d)],
      unhandled := none }
  | some (BindExc.overflowError d) =>
    { events := [cd], unhandled := some ("OverflowError: " ++ d) }
  | none =>
    { events := cd ::
        Event.bindTCP "" port ::
        Event.stdout ("Serving files from directory \x27" ++ directory ++ "\x27") ::
        Event.stdout ("Server started at http://localhost:" ++ toString port) ::
        Event.stdout "Press Ctrl+C to stop the server." ::
        ((env.requests.map (requestEvents env.fs)).flatten ++
          [Event.stdout "\nServer stopped."]),
      unhandled := none }

/-- The whole script: the `__main__` block computes the configuration, then
`run_server(PORT, DIRECTORY)` runs. -/
def mainProgram (argv : List String) (env : Env) : MainConfig × RunOutcome :=
  let cfg := pyMain argv
  (cfg, run_server env cfg.PORT cfg.DIRECTORY)

/-- The process exit code: 0 when no exception escapes (Python exits a
finished script with 0), 1 for an unhandled exception. -/
def pyExit (o : RunOutcome) : Nat :=
  if o.unhandled.isSome then 1 else 0

/-- A concrete serving root used by witnesses: one regular file
`/README.txt` with contents `hello`, and one subdirectory. -/
def demoFS : FileSystem :=
  { files := [("/README.txt", strBytes "hello")], dirs := ["/sub"] }

/-- A concrete run environment used by witnesses: relative caller
directory, absolute script path, free port, one request before the
interrupt. -/
def demoEnv : Env :=
  { cwd := "/home/user", scriptPath := "/srv/app/setup.py", portInUse := false,
    fs := demoFS, requests := ["/README.txt"] }

/-- A concrete run environment whose requested port is already bound. -/
def demoEnvBusy : Env :=
  { cwd := "/home/user", scriptPath := "/srv/app/setup.py", portInUse := true,
    fs := demoFS, requests := [] }

/-- Claim C1: on every invocation the very first effect of `run_server` is
`os.chdir` to the directory containing the script itself — computed from
`__file__` and the caller's working directory only, with the `directory`
argument (and hence `DEFAULT_DIRECTORY`) not entering the target — and it
precedes the TCP bind, which can only appear later in the trace. -/
theorem run_server_chdir_first (env : Env) (port : Int) (directory : String) :
    (run_server env port directory).events.head? =
      some (Event.chdir (dirname (abspath env.cwd env.scriptPath))) := by
  unfold run_server
  cases h : tcpServerExc port env.portInUse with
  | none => rfl
  | some e => cases e <;> rfl

/-- Claim C2: a GET for a path that names an existing regular file under
the serving root returns status 200, a body byte-identical to the file's
contents, a content-type guess, and a content-length equal to the body
length. -/
theorem get_file_200 (fs : FileSystem) (path : String) (bytes : List Nat)
    (h : fs.lookupFile path = some bytes) :
    (Handler.do_GET fs path).2.status = 200 ∧
    (Handler.do_GET fs path).2.body = bytes ∧
    (Handler.do_GET fs path).2.contentType = some (guessType path) ∧
    (Handler.do_GET fs path).2.contentLength = some bytes.length := by
  simp [Handler.do_GET, SimpleHTTPRequestHandler.do_GET, h]

/-- Witness for C2 at the concrete filesystem `demoFS`. -/
theorem get_file_200_witness :
    (Handler.do_GET demoFS "/README.txt").2.status = 200 ∧
    (Handler.do_GET demoFS "/README.txt").2.body = strBytes "hello" ∧
    (Handler.do_GET demoFS "/README.txt").2.contentType =
      some (guessType "/README.txt") ∧
    (Handler.do_GET demoFS "/README.txt").2.contentLength =
      some (strBytes "hello").length :=
  get_file_200 demoFS "/README.txt" (strBytes "hello") (by decide)

/-- Claim C3: a GET for a path that names neither a regular file nor a
directory under the serving root returns status 404, and such a request
leaves the handling of every other request in the serve loop unchanged:
the loop decomposes around it request by request. -/
theorem get_missing_404 (fs : FileSystem) (path : String)
    (h1 : fs.lookupFile path = none) (h2 : fs.isDir path = false) :
    (Handler.do_GET fs path).2.status = 404 ∧
    (∀ pre post : List String,
      serveRequests fs (pre ++ path :: post) =
        serveRequests fs pre ++ Handler.do_GET fs path :: serveRequests fs post) := by
  constructor
  · simp [Handler.do_GET, SimpleHTTPRequestHandler.do_GET, h1, h2]
  · intro pre post
    simp [serveRequests]

/-- Witness for C3 at the concrete filesystem `demoFS` and a missing
path. -/
theorem get_missing_404_witness :
    (Handler.do_GET demoFS "/missing").2.status = 404 ∧
    (∀ pre post : List String,
      serveRequests demoFS (pre ++ "/missing" :: post) =
        serveRequests demoFS pre ++
          Handler.do_GET demoFS "/missing" :: serveRequests demoFS post) :=
  get_missing_404 demoFS "/missing" (by decide) (by decide)

/-- Counterexample to claim C4 as stated: invoking with no first argument
(`sys.argv = ["setup.py"]`) does fall back to port 8000, but writes
nothing at all to the error stream — no warning is emitted in the absent
case. -/
theorem absent_arg_silent_fallback :
    List.length ["setup.py"] ≤ 1 ∧
    (pyMain ["setup.py"]).PORT = 8000 ∧
    (pyMain ["setup.py"]).stderrLines = [] := by
  decide

/-- Claim C4 as amended: when a first argument is present but does not
parse as an integer, the server falls back to port 8000, emits the
warning to the error stream, and still proceeds to `run_server` with the
default port and directory; when the first argument is absent, it falls
back to port 8000 silently and likewise proceeds. -/
theorem port_fallback (argv : List String) (env : Env) :
    (∀ h : argv.length > 1, pyInt (argv.get ⟨1, h⟩) = none →
      (pyMain argv).PORT = 8000 ∧
      (pyMain argv).stderrLines =
        ["Invalid port number provided. Using default port 8000."] ∧
      (mainProgram argv env).2 = run_server env 8000 ".") ∧
    (¬ argv.length > 1 →
      (pyMain argv).PORT = 8000 ∧
      (pyMain argv).stderrLines = [] ∧
      (mainProgram argv env).2 = run_server env 8000 ".") := by
  constructor
  · intro h hp
    have hm : pyMain argv =
        { PORT := DEFAULT_PORT, DIRECTORY := DEFAULT_DIRECTORY,
          stderrLines :=
            ["Invalid port number provided. Using default port 8000."] } := by
      unfold pyMain
      rw [dif_pos h, hp]
    refine ⟨?_, ?_, ?_⟩ <;>
      simp [mainProgram, hm, DEFAULT_PORT, DEFAULT_DIRECTORY]
  · intro h
    have hm : pyMain argv =
        { PORT := DEFAULT_PORT, DIRECTORY := DEFAULT_DIRECTORY,
          stderrLines := [] } := by
      unfold pyMain
      rw [dif_neg h]
    refine ⟨?_, ?_, ?_⟩ <;>
      simp [mainProgram, hm, DEFAULT_PORT, DEFAULT_DIRECTORY]

/-- Witness for the amended C4 at the concrete invocation
`setup.py abc`. -/
theorem port_fallback_witness :
    (pyMain ["setup.py", "abc"]).PORT = 8000 ∧
    (pyMain ["setup.py", "abc"]).stderrLines =
      ["Invalid port number provided. Using default port 8000."] ∧
    (mainProgram ["setup.py", "abc"] demoEnv).2 = run_server demoEnv 8000 "." :=
  (port_fallback ["setup.py", "abc"] demoEnv).1 (by decide) (by decide)

/-- Claim C5: when the first command-line argument parses as an integer
`p` in the valid TCP port range, the run binds the listener on host `""`
(all interfaces) at port `p`. -/
theorem valid_port_binds (argv : List String) (env : Env) (p : Int)
    (h : argv.length > 1) (hp : pyInt (argv.get ⟨1, h⟩) = some p)
    (h0 : 0 ≤ p) (h65 : p ≤ 65535) (hfree : env.portInUse = false) :
    Event.bindTCP "" p ∈ (mainProgram argv env).2.events := by
  have hm : pyMain argv =
      { PORT := p, DIRECTORY := DEFAULT_DIRECTORY, stderrLines := [] } := by
    unfold pyMain
    rw [dif_pos h, hp]
  have hexc : tcpServerExc p env.portInUse = none := by
    unfold tcpServerExc
    rw [if_neg (by omega), hfree]
    simp
  have h2 : (mainProgram argv env).2 = run_server env p DEFAULT_DIRECTORY := by
    simp [mainProgram, hm]
  rw [h2]
  unfold run_server
  rw [hexc]
  simp

/-- Witness for C5 at the concrete invocation `setup.py 9090`. -/
theorem valid_port_binds_witness :
    Event.bindTCP "" 9090 ∈ (mainProgram ["setup.py", "9090"] demoEnv).2.events :=
  valid_port_binds ["setup.py", "9090"] demoEnv 9090 (by decide) (by decide)
    (by decide) (by decide) (by decide)

/-- Claim C6: for every GET request, whatever the filesystem contains and
however resolution will turn out, the handler first prints exactly one
stdout line of the form `Serving file: <path>` before delegating. -/
theorem do_GET_prints_one_line (fs : FileSystem) (path : String) :
    (Handler.do_GET fs path).1 = [Event.stdout ("Serving file: " ++ path)] :=
  rfl

/-- Claim C7: when the bind succeeds and the serve loop is ended by an
interrupt, the run exits the loop with the shutdown notice as its last
output line, no unhandled exception, and process exit code 0. -/
theorem interrupt_graceful (env : Env) (port : Int) (directory : String)
    (hexc : tcpServerExc port env.portInUse = none) :
    (∃ pre, (run_server env port directory).events =
      pre ++ [Event.stdout "\nServer stopped."]) ∧
    (run_server env port directory).unhandled = none ∧
    pyExit (run_server env port directory) = 0 := by
  unfold run_server
  rw [hexc]
  refine ⟨⟨Event.chdir (dirname (abspath env.cwd env.scriptPath)) ::
    Event.bindTCP "" port ::
    Event.stdout ("Serving files from directory \x27" ++ directory ++ "\x27") ::
    Event.stdout ("Server started at http://localhost:" ++ toString port) ::
    Event.stdout "Press Ctrl+C to stop the server." ::
    (env.requests.map (requestEvents env.fs)).flatten, ?_⟩, rfl, rfl⟩
  simp

/-- Witness for C7 at the concrete environment `demoEnv`, port 8000. -/
theorem interrupt_graceful_witness :
    (∃ pre, (run_server demoEnv 8000 ".").events =
      pre ++ [Event.stdout "\nServer stopped."]) ∧
    (run_server demoEnv 8000 ".").unhandled = none ∧
    pyExit (run_server demoEnv 8000 ".") = 0 :=
  interrupt_graceful demoEnv 8000 "." (by decide)

/-- Claim C8: when the OS reports the in-range port as already bound, the
run consists of the chdir followed by exactly the two stderr lines (the
descriptive message and the details), and no exception escapes
unhandled. -/
theorem bind_error_reported (env : Env) (port : Int) (directory : String)
    (hbusy : env.portInUse = true) (h0 : 0 ≤ port) (h65 : port ≤ 65535) :
    (run_server env port directory).events =
      [Event.chdir (dirname (abspath env.cwd env.scriptPath)),
       Event.stderr ("Error: Could not start the server on port " ++
         toString port ++ ". The port might be in use."),
       Event.stderr ("Details: " ++ "[Errno 98] Address already in use")] ∧
    (run_server env port directory).unhandled = none := by
  have hexc : tcpServerExc port env.portInUse =
      some (BindExc.osError "[Errno 98] Address already in use") := by
    unfold tcpServerExc
    rw [if_neg (by omega), hbusy]
    simp
  unfold run_server
  rw [hexc]
  exact ⟨rfl, rfl⟩

/-- Witness for C8 at the concrete busy-port environment. -/
theorem bind_error_reported_witness :
    (run_server demoEnvBusy 8000 ".").events =
      [Event.chdir (dirname (abspath demoEnvBusy.cwd demoEnvBusy.scriptPath)),
       Event.stderr ("Error: Could not start the server on port " ++
         toString (8000 : Int) ++ ". The port might be in use."),
       Event.stderr ("Details: " ++ "[Errno 98] Address already in use")] ∧
    (run_server demoEnvBusy 8000 ".").unhandled = none :=
  bind_error_reported demoEnvBusy 8000 "." (by decide) (by decide) (by decide)

/-- Claim C9: on a successful bind the whole trace starts with the chdir
and the bind, then the three startup lines — the directory being served,
the listening URL, and the Ctrl-C instruction — and only after them the
per-request events. -/
theorem startup_banner (env : Env) (port : Int) (directory : String)
    (hexc : tcpServerExc port env.portInUse = none) :
    (run_server env port directory).events =
      Event.chdir (dirname (abspath env.cwd env.scriptPath)) ::
      Event.bindTCP "" port ::
      Event.stdout ("Serving files from directory \x27" ++ directory ++ "\x27") ::
      Event.stdout ("Server started at http://localhost:" ++ toString port) ::
      Event.stdout "Press Ctrl+C to stop the server." ::
      ((env.requests.map (requestEvents env.fs)).flatten ++
        [Event.stdout "\nServer stopped."]) := by
  unfold run_server
  rw [hexc]

/-- Witness for C9 at the concrete environment `demoEnv`, port 8000. -/
theorem startup_banner_witness :
    (run_server demoEnv 8000 ".").events =
      Event.chdir (dirname (abspath demoEnv.cwd demoEnv.scriptPath)) ::
      Event.bindTCP "" 8000 ::
      Event.stdout ("Serving files from directory \x27" ++ "." ++ "\x27") ::
      Event.stdout ("Server started at http://localhost:" ++ toString (8000 : Int)) ::
      Event.stdout "Press Ctrl+C to stop the server." ::
      ((demoEnv.requests.map (requestEvents demoEnv.fs)).flatten ++
        [Event.stdout "\nServer stopped."]) :=
  startup_banner demoEnv 8000 "." (by decide)

/-- Claim C10: a first argument parsing as an integer outside 0–65535 is
not replaced by the default: it reaches the TCP bind, whose
`OverflowError` is not an `OSError`, so the bind-error handler never runs
(the trace stops at the chdir with no stderr line) and the process ends
with an unhandled exception and a nonzero exit code. -/
theorem out_of_range_port_unhandled (argv : List String) (env : Env) (p : Int)
    (h : argv.length > 1) (hp : pyInt (argv.get ⟨1, h⟩) = some p)
    (hout : p < 0 ∨ p > 65535) :
    (pyMain argv).PORT = p ∧
    (mainProgram argv env).2.events =
      [Event.chdir (dirname (abspath env.cwd env.scriptPath))] ∧
    (mainProgram argv env).2.unhandled =
      some ("OverflowError: " ++ "bind(): port must be 0-65535.") ∧
    pyExit (mainProgram argv env).2 = 1 := by
  have hm : pyMain argv =
      { PORT := p, DIRECTORY := DEFAULT_DIRECTORY, stderrLines := [] } := by
    unfold pyMain
    rw [dif_pos h, hp]
  have hexc : tcpServerExc p env.portInUse =
      some (BindExc.overflowError "bind(): port must be 0-65535.") := by
    unfold tcpServerExc
    rw [if_pos hout]
  have h2 : (mainProgram argv env).2 = run_server env p DEFAULT_DIRECTORY := by
    simp [mainProgram, hm]
  rw [h2]
  unfold run_server
  rw [hexc]
  exact ⟨by rw [hm], rfl, rfl, rfl⟩

/-- Witness for C10 at the concrete invocation `setup.py 70000`. -/
theorem out_of_range_port_unhandled_witness :
    (pyMain ["setup.py", "70000"]).PORT = 70000 ∧
    (mainProgram ["setup.py", "70000"] demoEnv).2.events =
      [Event.chdir (dirname (abspath demoEnv.cwd demoEnv.scriptPath))] ∧
    (mainProgram ["setup.py", "70000"] demoEnv).2.unhandled =
      some ("OverflowError: " ++ "bind(): port must be 0-65535.") ∧
    pyExit (mainProgram ["setup.py", "70000"] demoEnv).2 = 1 :=
  out_of_range_port_unhandled ["setup.py", "70000"] demoEnv 70000
    (by decide) (by decide) (by decide)
